import Mathlib

/-!
# Verification of the smartbin correlated sensor simulation and token ledger

Shallow embedding of the Python sources (`temperature_sensor.py`,
`fill_level_sensor.py`, `humidity_sensor.py`, `air_quality_sensor.py`,
`odor_sensor.py`, `gps_sensor.py`, `recyclable_sensor.py`) over ℚ.
Python floats are modelled as rationals; every `random.random()` /
`random.uniform(a,b)` draw is threaded as an explicit parameter, so each
theorem quantifies over all outcomes of the draws.  `round(x, n)` is
modelled by round-to-nearest on rationals (Python rounds ties to even;
no theorem below depends on tie behaviour).  The token manager
(`token_system/token_manager.py`) is not part of the sources; it is
modelled from the specification's §4.5 as indicated on its definitions.
-/

namespace SmartBin

/-- Model of Python's `round(x, n)` on rationals: round to the nearest
multiple of `10^(-n)`. -/
def roundTo (n : ℕ) (x : ℚ) : ℚ := (round (x * 10 ^ n) : ℤ) / 10 ^ n

lemma round_mono_q {x y : ℚ} (h : x ≤ y) : round x ≤ round y := by
  rw [round_eq, round_eq]
  exact Int.floor_le_floor (by linarith)

lemma roundTo_le_of_le {n : ℕ} {x : ℚ} {b : ℤ} (h : x ≤ b) : roundTo n x ≤ b := by
  unfold roundTo
  have hpow : (0 : ℚ) < 10 ^ n := by positivity
  rw [div_le_iff₀ hpow]
  have h1 : round (x * 10 ^ n) ≤ round ((b : ℚ) * 10 ^ n) :=
    round_mono_q (by nlinarith)
  have h2 : round ((b : ℚ) * 10 ^ n) = b * 10 ^ n := by
    have : ((b * 10 ^ n : ℤ) : ℚ) = (b : ℚ) * 10 ^ n := by push_cast; ring
    rw [← this, round_intCast]
  have := h1.trans_eq h2
  calc ((round (x * 10 ^ n) : ℤ) : ℚ) ≤ ((b * 10 ^ n : ℤ) : ℚ) := by exact_mod_cast this
    _ = (b : ℚ) * 10 ^ n := by push_cast; ring

lemma le_roundTo_of_le {n : ℕ} {x : ℚ} {a : ℤ} (h : (a : ℚ) ≤ x) : (a : ℚ) ≤ roundTo n x := by
  unfold roundTo
  have hpow : (0 : ℚ) < 10 ^ n := by positivity
  rw [le_div_iff₀ hpow]
  have h1 : round ((a : ℚ) * 10 ^ n) ≤ round (x * 10 ^ n) :=
    round_mono_q (by nlinarith)
  have h2 : round ((a : ℚ) * 10 ^ n) = a * 10 ^ n := by
    have : ((a * 10 ^ n : ℤ) : ℚ) = (a : ℚ) * 10 ^ n := by push_cast; ring
    rw [← this, round_intCast]
  have := h2.symm.trans_le h1
  calc (a : ℚ) * 10 ^ n = ((a * 10 ^ n : ℤ) : ℚ) := by push_cast; ring
    _ ≤ ((round (x * 10 ^ n) : ℤ) : ℚ) := by exact_mod_cast this

/-! ## Temperature sensor (`temperature_sensor.py`) -/

/-- Mutable state and configuration of `TemperatureSensor` (`__init__`). -/
structure TempState where
  base_temperature : ℚ
  normal_fluctuation : ℚ
  anomaly_threshold_high : ℚ
  anomaly_threshold_low : ℚ
  anomaly_probability : ℚ
  normal_readings_before_anomaly : ℕ
  current_temperature : ℚ
  normal_readings_count : ℕ
deriving Repr, DecidableEq

/-- `TemperatureSensor.__init__` with its default parameters. -/
def tempInit (base_temperature : ℚ := 22) (normal_fluctuation : ℚ := 2)
    (anomaly_threshold_high : ℚ := 50) (anomaly_threshold_low : ℚ := 0)
    (anomaly_probability : ℚ := 1/20) (normal_readings_before_anomaly : ℕ := 3) :
    TempState :=
  { base_temperature := base_temperature
    normal_fluctuation := normal_fluctuation
    anomaly_threshold_high := anomaly_threshold_high
    anomaly_threshold_low := anomaly_threshold_low
    anomaly_probability := anomaly_probability
    normal_readings_before_anomaly := normal_readings_before_anomaly
    current_temperature := base_temperature
    normal_readings_count := 0 }

/-- Record returned by `TemperatureSensor.read`. -/
structure TempReading where
  temperature : ℚ
  unit : String
  isAnomaly : Bool
  anomalyType : String
deriving Repr, DecidableEq

/-- `TemperatureSensor.read`.  Draw `r1` is the `random.random()` compared
with `anomaly_probability`; `r2` the `random.random()` compared with `0.7`
inside the anomaly branch; `u` the single `random.uniform` draw consumed by
whichever branch runs (`uniform(0,20)` for a high anomaly, `uniform(0,10)`
for a low anomaly, `uniform(-fluctuation, fluctuation)` in the normal
branch). -/
def tempRead (s : TempState) (r1 r2 u : ℚ) : TempReading × TempState :=
  let force_anomaly : Bool := decide (s.normal_readings_before_anomaly ≤ s.normal_readings_count)
  let is_anomaly : Bool := force_anomaly || decide (r1 < s.anomaly_probability)
  let count' := if is_anomaly then 0 else s.normal_readings_count + 1
  let temp' :=
    if is_anomaly then
      if r2 < 7/10 then s.anomaly_threshold_high + u
      else s.anomaly_threshold_low - u
    else
      8/10 * s.current_temperature + 2/10 * s.base_temperature + u
  let is_high_anomaly : Bool := decide (s.anomaly_threshold_high < temp')
  let is_low_anomaly : Bool := decide (temp' < s.anomaly_threshold_low)
  ({ temperature := roundTo 2 temp'
     unit := "Celsius"
     isAnomaly := is_high_anomaly || is_low_anomaly
     anomalyType :=
       if is_high_anomaly then "high" else if is_low_anomaly then "low" else "none" },
   { s with current_temperature := temp', normal_readings_count := count' })

/-- C2 (counterexample): with the default configuration and the
consecutive-normal counter at its threshold 3, the legal draws
`r1 = 1/2`, `r2 = 0` (high-anomaly sub-branch) and `u = 0` (an admissible
outcome of `uniform(0, 20)`) make `read` take the anomaly branch (counter
resets, value set to `anomaly_threshold_high + 0 = 50`), yet the returned
reading has `isAnomaly = false` and `anomalyType = "none"`, because
`is_high_anomaly` uses the strict comparison `current > threshold`.  This
refutes the claim that the forced-anomaly reading is flagged
`isAnomaly = true` for all outcomes of the random draws. -/
theorem temp_forced_anomaly_counterexample :
    tempInit.normal_readings_before_anomaly = 3 ∧
    (tempRead { tempInit with normal_readings_count := 3 } (1/2) 0 0).2.normal_readings_count = 0 ∧
    (tempRead { tempInit with normal_readings_count := 3 } (1/2) 0 0).2.current_temperature = 50 ∧
    (tempRead { tempInit with normal_readings_count := 3 } (1/2) 0 0).1.isAnomaly = false ∧
    (tempRead { tempInit with normal_readings_count := 3 } (1/2) 0 0).1.anomalyType = "none" := by
  refine ⟨rfl, ?_, ?_, ?_, ?_⟩ <;> norm_num [tempRead, tempInit]

/-- C2 (amended): once the consecutive-normal counter has reached
`normal_readings_before_anomaly`, the very next `read` takes the anomaly
branch for every outcome of the draws: the counter resets to 0 and the
stored value becomes `anomaly_threshold_high + u` when `r2 < 0.7` and
`anomaly_threshold_low - u` otherwise; and whenever the uniform offset `u`
is strictly positive the returned reading has `isAnomaly = true` with
`anomalyType` `"high"` or `"low"`.  (When `u = 0` the value sits exactly on
the threshold and the strict comparisons leave `isAnomaly = false`.) -/
theorem temp_forced_anomaly (s : TempState) (r1 r2 u : ℚ)
    (hforce : s.normal_readings_before_anomaly ≤ s.normal_readings_count)
    (hu : 0 < u) :
    (tempRead s r1 r2 u).2.normal_readings_count = 0 ∧
    (tempRead s r1 r2 u).2.current_temperature =
      (if r2 < 7/10 then s.anomaly_threshold_high + u else s.anomaly_threshold_low - u) ∧
    (tempRead s r1 r2 u).1.isAnomaly = true ∧
    ((tempRead s r1 r2 u).1.anomalyType = "high" ∨
      (tempRead s r1 r2 u).1.anomalyType = "low") := by
  have hf : decide (s.normal_readings_before_anomaly ≤ s.normal_readings_count) = true :=
    decide_eq_true hforce
  unfold tempRead
  simp only [hf, Bool.true_or, if_true]
  by_cases hr : r2 < 7/10
  · have hhigh : s.anomaly_threshold_high < s.anomaly_threshold_high + u := by linarith
    simp [hr, hhigh]
  · by_cases hh : s.anomaly_threshold_high < s.anomaly_threshold_low - u
    · simp [hr, hh]
    · have hlow : s.anomaly_threshold_low - u < s.anomaly_threshold_low := by linarith
      simp [hr, hh, hlow]

/-- Witness for `temp_forced_anomaly` at the default state with
counter 3, draws `r1 = 1/2`, `r2 = 0`, `u = 1`. -/
theorem temp_forced_anomaly_witness :
    (tempRead { tempInit with normal_readings_count := 3 } (1/2) 0 1).1.isAnomaly = true ∧
    (tempRead { tempInit with normal_readings_count := 3 } (1/2) 0 1).2.normal_readings_count = 0 := by
  have h := temp_forced_anomaly { tempInit with normal_readings_count := 3 } (1/2) 0 1
    (by norm_num [tempInit]) (by norm_num)
  exact ⟨h.2.2.1, h.1⟩

/-! ## Fill level sensor (`fill_level_sensor.py`) -/

/-- Mutable state and configuration of `FillLevelSensor` (`__init__`). -/
structure FillState where
  fill_level : ℚ
  fill_rate : ℚ
  capacity : ℚ
  fill_rate_variation : ℚ
  overflow_threshold : ℚ
deriving Repr, DecidableEq

/-- `FillLevelSensor.__init__` with its default parameters; note the initial
level is only clamped above, at `capacity`. -/
def fillInit (initial_fill_level : ℚ := 10) (fill_rate : ℚ := 1/20)
    (capacity : ℚ := 100) (fill_rate_variation : ℚ := 1/50)
    (overflow_threshold : ℚ := 95) : FillState :=
  { fill_level := min initial_fill_level capacity
    fill_rate := fill_rate
    capacity := capacity
    fill_rate_variation := fill_rate_variation
    overflow_threshold := overflow_threshold }

/-- Record returned by `FillLevelSensor.read` (the nested
`fillLevelData` block repeats `fillLevel`/`status` and is omitted). -/
structure FillReading where
  fillLevel : ℚ
  unit : String
  capacity : ℚ
  isFull : Bool
  isOverflowing : Bool
  status : String
deriving Repr, DecidableEq

/-- `FillLevelSensor.read`; `v` is the `uniform(-fill_rate_variation,
fill_rate_variation)` draw. -/
def fillRead (s : FillState) (v : ℚ) : FillReading × FillState :=
  let current_fill_rate := s.fill_rate + v
  let newLevel := min (s.fill_level + current_fill_rate) s.capacity
  let fl := roundTo 2 newLevel
  let is_full : Bool := decide (s.overflow_threshold ≤ fl)
  let is_overflowing : Bool := decide (s.capacity ≤ fl)
  ({ fillLevel := fl
     unit := "percentage"
     capacity := s.capacity
     isFull := is_full
     isOverflowing := is_overflowing
     status := if is_overflowing then "overflow" else if is_full then "full" else "normal" },
   { s with fill_level := newLevel })

/-- `FillLevelSensor.set_fill_level` (clamps into `[0, capacity]`). -/
def setFillLevel (s : FillState) (fill_level : ℚ) : FillState :=
  { s with fill_level := min (max 0 fill_level) s.capacity }

/-- `FillLevelSensor.empty_bin`. -/
def emptyBin (s : FillState) : FillState :=
  { s with fill_level := 0 }

/-- C8 (confirmed): every `read` adds `fillRate + uniform(-variation,
variation)` to the stored level and clamps the result at `capacity`; the
reported level is that value rounded to 2 decimals; `isFull` holds exactly
when the reported level is `≥ overflowThreshold`, `isOverflowing` exactly
when the reported level is `≥ capacity`, and `status` is chosen by the
precedence overflow > full > normal. -/
theorem fill_level_read_contract (s : FillState) (v : ℚ)
    (hv : -s.fill_rate_variation ≤ v ∧ v ≤ s.fill_rate_variation) :
    (fillRead s v).2.fill_level = min (s.fill_level + (s.fill_rate + v)) s.capacity ∧
    (fillRead s v).1.fillLevel = roundTo 2 (min (s.fill_level + (s.fill_rate + v)) s.capacity) ∧
    ((fillRead s v).1.isFull = true ↔ s.overflow_threshold ≤ (fillRead s v).1.fillLevel) ∧
    ((fillRead s v).1.isOverflowing = true ↔ s.capacity ≤ (fillRead s v).1.fillLevel) ∧
    (fillRead s v).1.status =
      (if (fillRead s v).1.isOverflowing then "overflow"
       else if (fillRead s v).1.isFull then "full" else "normal") := by
  refine ⟨rfl, rfl, ?_, ?_, rfl⟩ <;> simp [fillRead]

/-- Witness for `fill_level_read_contract` at the default state and draw
`v = 0`: one read moves the level from 10 to 10.05 and reports `normal`. -/
theorem fill_level_read_contract_witness :
    (fillRead fillInit 0).2.fill_level = 201/20 ∧
    (fillRead fillInit 0).1.status = "normal" := by
  have h := fill_level_read_contract fillInit 0 (by norm_num [fillInit])
  refine ⟨h.1.trans (by norm_num [fillInit]), h.2.2.2.2.trans ?_⟩
  norm_num [fillRead, fillInit, roundTo]

/-! ## GPS sensor (`gps_sensor.py`) -/

/-- Mutable state and configuration of `GPSSensor` (`__init__`). -/
structure GPSState where
  latitude : ℚ
  longitude : ℚ
  movement_range : ℚ
deriving Repr, DecidableEq

/-- `GPSSensor.__init__` with its default parameters. -/
def gpsInit (initial_latitude : ℚ := 0) (initial_longitude : ℚ := 0)
    (movement_range : ℚ := 23/2000) : GPSState :=
  { latitude := initial_latitude
    longitude := initial_longitude
    movement_range := movement_range }

/-- Record returned by `GPSSensor.read` (the nested `location` block
repeats the coordinates and is omitted). -/
structure GPSReading where
  latitude : ℚ
  longitude : ℚ
deriving Repr, DecidableEq

/-- `GPSSensor.read`; `dlat`, `dlon` are the two
`uniform(-movement_range, movement_range)` draws. -/
def gpsRead (s : GPSState) (dlat dlon : ℚ) : GPSReading × GPSState :=
  let lat' := max (-90) (min 90 (s.latitude + dlat))
  let lon' := max (-180) (min 180 (s.longitude + dlon))
  ({ latitude := roundTo 6 lat', longitude := roundTo 6 lon' },
   { s with latitude := lat', longitude := lon' })

/-! ## Humidity sensor (`humidity_sensor.py`) -/

/-- Mutable state and configuration of `HumiditySensor` (`__init__`). -/
structure HumidityState where
  base_humidity : ℚ
  humidity_variation : ℚ
  high_humidity_threshold : ℚ
  mold_risk_threshold : ℚ
  fill_level_correlation : ℚ
  current_humidity : ℚ
deriving Repr, DecidableEq

/-- `HumiditySensor.__init__` with its default parameters. -/
def humidityInit (base_humidity : ℚ := 50) (humidity_variation : ℚ := 5)
    (high_humidity_threshold : ℚ := 75) (mold_risk_threshold : ℚ := 80)
    (fill_level_correlation : ℚ := 3/5) : HumidityState :=
  { base_humidity := base_humidity
    humidity_variation := humidity_variation
    high_humidity_threshold := high_humidity_threshold
    mold_risk_threshold := mold_risk_threshold
    fill_level_correlation := fill_level_correlation
    current_humidity := base_humidity }

/-- Record returned by `HumiditySensor.read` (the nested `humidityData`
block repeats these fields and is omitted). -/
structure HumidityReading where
  humidity : ℚ
  unit : String
  isHigh : Bool
  isMoldRisk : Bool
  moldRiskPercentage : ℚ
  status : String
deriving Repr, DecidableEq

/-- `HumiditySensor.read`; `fill_level` is the optional correlation input
(`None` in Python is `none`), `v` the
`uniform(-humidity_variation, humidity_variation)` draw. -/
def humidityRead (s : HumidityState) (fill_level : Option ℚ) (v : ℚ) :
    HumidityReading × HumidityState :=
  let base_humidity :=
    match fill_level with
    | some fl => s.base_humidity + min (fl / 100) 1 * s.fill_level_correlation * 30
    | none => s.base_humidity
  let humidity := max 0 (min 100 (base_humidity + v))
  let is_high : Bool := decide (s.high_humidity_threshold < humidity)
  let is_mold_risk : Bool := decide (s.mold_risk_threshold < humidity)
  let mold_risk :=
    if s.mold_risk_threshold < humidity then
      min 100 ((humidity - s.mold_risk_threshold) / (100 - s.mold_risk_threshold) * 100)
    else 0
  ({ humidity := roundTo 2 humidity
     unit := "percentage"
     isHigh := is_high
     isMoldRisk := is_mold_risk
     moldRiskPercentage := roundTo 2 mold_risk
     status := if is_mold_risk then "mold_risk" else if is_high then "high" else "normal" },
   { s with current_humidity := humidity })

/-! ## Air quality sensor (`air_quality_sensor.py`) -/

/-- The `AQI_CATEGORIES` table: category name with its inclusive
`(min, max)` range, in the dictionary's insertion order. -/
def AQI_CATEGORIES : List (String × ℚ × ℚ) :=
  [("good", 0, 50), ("moderate", 51, 100), ("unhealthy_sensitive", 101, 150),
   ("unhealthy", 151, 200), ("very_unhealthy", 201, 300), ("hazardous", 301, 500)]

/-- The category-selection loop inside `AirQualitySensor.read`: `category`
starts as `"good"` and the first `AQI_CATEGORIES` entry (in insertion
order) whose inclusive range contains `aqi` wins; if no range contains
`aqi` the initial `"good"` survives.  Written as the corresponding
first-match chain over the table's entries. -/
def aqiCategoryOf (aqi : ℚ) : String :=
  if 0 ≤ aqi ∧ aqi ≤ 50 then "good"
  else if 51 ≤ aqi ∧ aqi ≤ 100 then "moderate"
  else if 101 ≤ aqi ∧ aqi ≤ 150 then "unhealthy_sensitive"
  else if 151 ≤ aqi ∧ aqi ≤ 200 then "unhealthy"
  else if 201 ≤ aqi ∧ aqi ≤ 300 then "very_unhealthy"
  else if 301 ≤ aqi ∧ aqi ≤ 500 then "hazardous"
  else "good"

/-- Mutable state and configuration of `AirQualitySensor` (`__init__`). -/
structure AirQualityState where
  base_aqi : ℚ
  aqi_variation : ℚ
  fill_level_correlation : ℚ
  temperature_correlation : ℚ
  current_aqi : ℚ
deriving Repr, DecidableEq

/-- `AirQualitySensor.__init__` with its default parameters. -/
def airQualityInit (base_aqi : ℚ := 50) (aqi_variation : ℚ := 10)
    (fill_level_correlation : ℚ := 7/10) (temperature_correlation : ℚ := 1/2) :
    AirQualityState :=
  { base_aqi := base_aqi
    aqi_variation := aqi_variation
    fill_level_correlation := fill_level_correlation
    temperature_correlation := temperature_correlation
    current_aqi := base_aqi }

/-- Record returned by `AirQualitySensor.read` (the nested
`airQualityData` block repeats these fields and is omitted; `status`
equals `category`). -/
structure AirQualityReading where
  aqi : ℚ
  category : String
  co2 : ℚ
  voc : ℚ
  pm25 : ℚ
  status : String
deriving Repr, DecidableEq

/-- `AirQualitySensor.read`; `fill_level` and `temperature` are the
optional correlation inputs, `v` the `uniform(-aqi_variation,
aqi_variation)` draw. -/
def airQualityRead (s : AirQualityState) (fill_level temperature : Option ℚ) (v : ℚ) :
    AirQualityReading × AirQualityState :=
  let base1 :=
    match fill_level with
    | some fl => s.base_aqi + min (fl / 100) 1 * s.fill_level_correlation * 100
    | none => s.base_aqi
  let base2 :=
    match temperature with
    | some t => base1 + max 0 ((t - 25) / 25) * s.temperature_correlation * 50
    | none => base1
  let aqi := max 0 (min 500 (base2 + v))
  let category := aqiCategoryOf aqi
  let co2_level := 400 + aqi * 2
  let voc_level := 1/2 + aqi * (1/100)
  let pm25_level := 12 + aqi * (24/100)
  ({ aqi := roundTo 2 aqi
     category := category
     co2 := roundTo 2 co2_level
     voc := roundTo 2 voc_level
     pm25 := roundTo 2 pm25_level
     status := category },
   { s with current_aqi := aqi })

/-- `AirQualitySensor.get_category_for_aqi` (unlike the loop in `read`,
its fall-through default is `"hazardous"`). -/
def getCategoryForAqi (aqi : ℚ) : String :=
  match AQI_CATEGORIES.find? (fun c => decide (c.2.1 ≤ aqi ∧ aqi ≤ c.2.2)) with
  | some c => c.1
  | none => "hazardous"

/-! ## Categorical draws (`random.choices` / `random.choice`) -/

/-- Model of `random.choices(population, weights, k=1)[0]`: with `t =
random() * total_weight`, CPython returns the element at the first index
whose cumulative weight exceeds `t`, the index clamped to the last
position; `none` models the error on an empty population. -/
def pickWeighted : List (String × ℚ) → ℚ → Option String
  | [], _ => none
  | [(a, _)], _ => some a
  | (a, w) :: rest, t => if t < w then some a else pickWeighted rest (t - w)

/-- Total weight of a weighted population. -/
def totalWeight (l : List (String × ℚ)) : ℚ := (l.map Prod.snd).sum

lemma pickWeighted_mem {l : List (String × ℚ)} {t : ℚ} {a : String}
    (h : pickWeighted l t = some a) : a ∈ l.map Prod.fst := by
  induction l generalizing t with
  | nil => simp [pickWeighted] at h
  | cons hd tl ih =>
    match tl, h with
    | [], h => simp [pickWeighted] at h; simp [h]
    | hd2 :: tl2, h =>
      rw [pickWeighted] at h
      · split at h
        · simp at h; simp [h]
        · simpa using Or.inr (ih h)
      · simp

/-! ## Odor sensor (`odor_sensor.py`) -/

/-- The `ODOR_TYPES` table: type name with its description and inclusive
intensity range, in the dictionary's insertion order (the
`correlation_with_fill` field is never read and is omitted). -/
def ODOR_TYPES : List (String × String × ℚ × ℚ) :=
  [("organic", "Decomposing organic waste", 1/10, 1),
   ("chemical", "Chemical waste or cleaning products", 3/10, 9/10),
   ("mold", "Mold or mildew growth", 1/5, 7/10),
   ("none", "No significant odor", 0, 1/10)]

/-- Intensity range of an odor type (total lookup in `ODOR_TYPES`; all
call sites pass one of the four keys). -/
def odorRange (odor_type : String) : ℚ × ℚ :=
  match ODOR_TYPES.find? (fun c => c.1 = odor_type) with
  | some c => (c.2.2.1, c.2.2.2)
  | none => (0, 0)

/-- Description string of an odor type. -/
def odorDescription (odor_type : String) : String :=
  match ODOR_TYPES.find? (fun c => c.1 = odor_type) with
  | some c => c.2.1
  | none => ""

/-- Mutable state and configuration of `OdorSensor` (`__init__`). -/
structure OdorState where
  odor_threshold : ℚ
  fill_level_correlation : ℚ
  odor_variation : ℚ
  current_odor_type : String
  current_intensity : ℚ
deriving Repr, DecidableEq

/-- `OdorSensor.__init__` with its default parameters. -/
def odorInit (odor_threshold : ℚ := 3/5) (fill_level_correlation : ℚ := 7/10)
    (odor_variation : ℚ := 1/10) : OdorState :=
  { odor_threshold := odor_threshold
    fill_level_correlation := fill_level_correlation
    odor_variation := odor_variation
    current_odor_type := "none"
    current_intensity := 0 }

/-- Record returned by `OdorSensor.read` (the nested `odorData` block
repeats these fields and is omitted). -/
structure OdorReading where
  odorType : String
  odorDescription : String
  intensity : ℚ
  unit : String
  isSignificant : Bool
  status : String
deriving Repr, DecidableEq

/-- The four hardcoded weight vectors of `OdorSensor.read`, keyed by the
fill-factor bucket, over `[organic, chemical, mold, none]`. -/
def odorWeights (fill_factor : ℚ) : List (String × ℚ) :=
  if 4/5 < fill_factor then
    [("organic", 1/2), ("chemical", 3/10), ("mold", 3/20), ("none", 1/20)]
  else if 1/2 < fill_factor then
    [("organic", 3/10), ("chemical", 1/5), ("mold", 3/10), ("none", 1/5)]
  else if 1/5 < fill_factor then
    [("organic", 1/10), ("chemical", 1/5), ("mold", 1/5), ("none", 1/2)]
  else
    [("organic", 1/20), ("chemical", 1/10), ("mold", 1/10), ("none", 3/4)]

/-- The no-fill-level weight vector of `OdorSensor.read`, over the keys of
`ODOR_TYPES` in insertion order. -/
def odorWeightsNoFill : List (String × ℚ) :=
  [("organic", 3/10), ("chemical", 1/5), ("mold", 1/5), ("none", 3/10)]

/-- `OdorSensor.read`; `fill_level` is the optional correlation input.
`rChoice` is the `random()` draw of the `random.choices` call (the chosen
type is the weighted pick at `rChoice * total_weight`); `tBase ∈ [0,1)` is
the `random()` underlying `uniform(min_intensity, max_intensity)` (CPython
computes `a + (b-a)*random()`); `v` is the `uniform(-odor_variation,
odor_variation)` draw. -/
def odorRead (s : OdorState) (fill_level : Option ℚ) (rChoice tBase v : ℚ) :
    OdorReading × OdorState :=
  let weights :=
    match fill_level with
    | some fl => odorWeights (min (fl / 100) 1 * s.fill_level_correlation)
    | none => odorWeightsNoFill
  let odor_type := (pickWeighted weights (rChoice * totalWeight weights)).getD "none"
  let rng := odorRange odor_type
  let base_intensity := rng.1 + (rng.2 - rng.1) * tBase
  let intensity := max 0 (min 1 (base_intensity + v))
  let is_significant : Bool := decide (s.odor_threshold < intensity)
  ({ odorType := odor_type
     odorDescription := odorDescription odor_type
     intensity := roundTo 3 intensity
     unit := "normalized"
     isSignificant := is_significant
     status := if is_significant then "significant" else "normal" },
   { s with current_odor_type := odor_type, current_intensity := intensity })

/-! ## Token ledger (`token_system/token_manager.py`, not among the
sources; modelled from the specification §3 and §4.5) -/

/-- Modelled from the spec: one entry of a user's append-only redemption
history, `{timestamp, tokens, option, reward}` (§3 UserAccount, §4.5
`redeemTokens`). -/
structure Redemption where
  timestamp : String
  tokens : ℚ
  option : String
  reward : ℚ
deriving Repr, DecidableEq

/-- Modelled from the spec: a UserAccount — user id, display name, token
balance, ordered redemption history (§3). -/
structure UserAccount where
  user_id : String
  name : String
  balance : ℚ
  redemption_history : List Redemption
deriving Repr, DecidableEq

/-- Modelled from the spec: the TokenManager owns the id→account mapping
and the two static catalogs (per-kg token values and redemption rates),
here as association lists (§3 TokenLedger). -/
structure TokenManager where
  users : List (String × UserAccount)
  token_values : List (String × ℚ)
  redemption_options : List (String × ℚ)
deriving Repr, DecidableEq

/-- Python `dict` access `d.get(key)` / `key in d` over an association
list. -/
def alookup {β : Type} : List (String × β) → String → Option β
  | [], _ => none
  | (k, v) :: rest, key => if k = key then some v else alookup rest key

/-- Replace the account stored under `uid` (other keys untouched). -/
def updateUser (users : List (String × UserAccount)) (uid : String)
    (acct : UserAccount) : List (String × UserAccount) :=
  users.map (fun p => if p.1 = uid then (uid, acct) else p)

/-- Modelled from the spec: `registerUser(name)` creates an account with
balance 0 and empty history and fails on an empty name (§4.5); the id
generation scheme is not specified, so the fresh id is a parameter. -/
def registerUser (tm : TokenManager) (user_id name : String) :
    Option (UserAccount × TokenManager) :=
  if name = "" then none
  else
    let acct : UserAccount :=
      { user_id := user_id, name := name, balance := 0, redemption_history := [] }
    some (acct, { tm with users := tm.users ++ [(user_id, acct)] })

/-- Modelled from the spec: `awardTokens(userId, materialType, subtype,
weightKg, timestamp) → (success, tokensAwarded)`; tokens =
`weightKg × catalog[materialType].valuePerKg` rounded to 2 decimals,
credited to the balance; fails with `(false, 0)` and no mutation when
`userId` is unknown or `materialType` is not in the catalog (§4.5). -/
def awardTokens (tm : TokenManager) (userId materialType _subtype : String)
    (weightKg : ℚ) (_timestamp : String) : (Bool × ℚ) × TokenManager :=
  match alookup tm.users userId, alookup tm.token_values materialType with
  | some acct, some valuePerKg =>
    let tokens := roundTo 2 (weightKg * valuePerKg)
    let acct' := { acct with balance := acct.balance + tokens }
    ((true, tokens), { tm with users := updateUser tm.users userId acct' })
  | _, _ => ((false, 0), tm)

/-- Modelled from the spec: `redeemTokens(userId, tokenCount, optionName)
→ success`; succeeds only if the user exists, the option is known and
`balance ≥ tokenCount`, in which case it debits the balance and appends
`{timestamp, tokens, option, reward = tokenCount × rate}` to the history;
otherwise leaves state unchanged and returns false (§4.5).  The history
timestamp comes from the clock, passed here as a parameter. -/
def redeemTokens (tm : TokenManager) (userId : String) (tokenCount : ℚ)
    (optionName timestamp : String) : Bool × TokenManager :=
  match alookup tm.users userId, alookup tm.redemption_options optionName with
  | some acct, some rate =>
    if tokenCount ≤ acct.balance then
      let acct' : UserAccount :=
        { acct with
          balance := acct.balance - tokenCount
          redemption_history := acct.redemption_history ++
            [{ timestamp := timestamp, tokens := tokenCount,
               option := optionName, reward := tokenCount * rate }] }
      (true, { tm with users := updateUser tm.users userId acct' })
    else (false, tm)
  | _, _ => (false, tm)

lemma alookup_cons {β : Type} (k : String) (v : β) (rest : List (String × β))
    (key : String) :
    alookup ((k, v) :: rest) key = if k = key then some v else alookup rest key := rfl

lemma updateUser_cons (k : String) (v : UserAccount) (tl : List (String × UserAccount))
    (uid : String) (acct : UserAccount) :
    updateUser ((k, v) :: tl) uid acct =
      (if k = uid then (uid, acct) else (k, v)) :: updateUser tl uid acct := rfl

lemma alookup_updateUser_self {users : List (String × UserAccount)} {uid : String}
    (acct : UserAccount) (h : (alookup users uid).isSome) :
    alookup (updateUser users uid acct) uid = some acct := by
  induction users with
  | nil => simp [alookup] at h
  | cons hd tl ih =>
    obtain ⟨k0, a0⟩ := hd
    rw [updateUser_cons]
    by_cases he : k0 = uid
    · rw [if_pos he, alookup_cons, if_pos rfl]
    · rw [alookup_cons, if_neg he] at h
      rw [if_neg he, alookup_cons, if_neg he]
      exact ih h

lemma alookup_updateUser_other {users : List (String × UserAccount)} {uid k : String}
    (acct : UserAccount) (hk : k ≠ uid) :
    alookup (updateUser users uid acct) k = alookup users k := by
  induction users with
  | nil => simp [updateUser, alookup]
  | cons hd tl ih =>
    obtain ⟨k0, a0⟩ := hd
    rw [updateUser_cons, alookup_cons]
    by_cases he : k0 = uid
    · rw [if_pos he, alookup_cons, if_neg (fun hc => hk hc.symm),
        if_neg (fun hc : k0 = k => hk (hc ▸ he))]
      exact ih
    · rw [if_neg he, alookup_cons]
      by_cases hke : k0 = k
      · rw [if_pos hke, if_pos hke]
      · rw [if_neg hke, if_neg hke]
        exact ih

/-! ## Recyclable sensor (`recyclable_sensor.py`) -/

/-- A Python scalar value inside the reading dict returned by
`RecyclableSensor.read`. -/
inductive JVal where
  | str (s : String)
  | num (q : ℚ)
  | bool (b : Bool)
  | null
deriving Repr, DecidableEq

/-- Python `dict.get(key, default)` used by `main.py` on recyclable
readings. -/
def dictGetD (d : List (String × JVal)) (key : String) (dflt : JVal) : JVal :=
  (alookup d key).getD dflt

/-- One entry of the `MATERIAL_TYPES` class dictionary. -/
structure MaterialInfo where
  subtypes : List String
  weight_min : ℚ
  weight_max : ℚ
  density : ℚ
deriving Repr, DecidableEq

/-- The static `MATERIAL_TYPES` catalog, in insertion order. -/
def MATERIAL_TYPES : List (String × MaterialInfo) :=
  [("paper", ⟨["newspaper", "cardboard", "magazine", "mixed paper"], 1/20, 2, 75⟩),
   ("plastic", ⟨["PET bottle", "HDPE container", "plastic bag", "plastic packaging"],
      1/100, 1/2, 35⟩),
   ("metal", ⟨["aluminum can", "steel can", "metal lid", "foil"], 1/50, 1/2, 125/2⟩),
   ("glass", ⟨["clear bottle", "green bottle", "brown bottle", "glass jar"], 1/10, 1, 500⟩),
   ("e-waste", ⟨["battery", "small electronic", "cable", "charger"], 1/20, 2, 350⟩)]

/-- The default detection probabilities of `RecyclableSensor.__init__`. -/
def defaultDetectionProbs : List (String × ℚ) :=
  [("paper", 3/10), ("plastic", 2/5), ("metal", 3/20), ("glass", 1/10), ("e-waste", 1/20)]

/-- State of a `RecyclableSensor`: configured weights, the optionally
attached token manager and the mutable current-user id. -/
structure RecState where
  detection_probabilities : List (String × ℚ)
  token_manager : Option TokenManager
  current_user_id : Option String
deriving Repr, DecidableEq

/-- `RecyclableSensor.__init__`: `detection_probabilities or {...}` falls
back to the default table when the argument is `None` **or** an empty
dict (Python truthiness); no validation happens here. -/
def recyclableInit (detection_probabilities : Option (List (String × ℚ)) := none)
    (token_manager : Option TokenManager := none) : RecState :=
  { detection_probabilities :=
      match detection_probabilities with
      | none => defaultDetectionProbs
      | some [] => defaultDetectionProbs
      | some l => l
    token_manager := token_manager
    current_user_id := none }

/-- `RecyclableSensor.set_detection_probabilities`: validates that the
weights sum to `1 ± 0.01` (inclusive bounds `0.99 ≤ total ≤ 1.01`),
raising `ValueError` (modelled as `Except.error`) without installing them
otherwise. -/
def setDetectionProbabilities (s : RecState)
    (detection_probabilities : List (String × ℚ)) : Except String RecState :=
  let total_prob := totalWeight detection_probabilities
  if ¬(99/100 ≤ total_prob ∧ total_prob ≤ 101/100) then
    Except.error "Detection probabilities must sum to approximately 1.0"
  else
    Except.ok { s with detection_probabilities := detection_probabilities }

/-- `RecyclableSensor.set_current_user`. -/
def setCurrentUser (s : RecState) (user_id : String) : RecState :=
  { s with current_user_id := some user_id }

/-- Python truthiness of the `current_user_id` attribute (`None` and the
empty string are falsy). -/
def uidTruthy : Option String → Bool
  | none => false
  | some u => u ≠ ""

/-- The dict returned by the 10% no-detection branch of
`RecyclableSensor.read`. -/
def noDetectionDict : List (String × JVal) :=
  [("materialDetected", JVal.bool false), ("materialType", JVal.null),
   ("materialSubtype", JVal.null), ("weight", JVal.num 0),
   ("weightUnit", JVal.str "kg")]

/-- `RecyclableSensor.read`.  Draws: `r` is the `random.random()` of the
no-detection test (`r > 0.9` means nothing detected); `rChoice` the
`random()` of the `random.choices` over the configured weights; `i` the
index drawn by `random.choice` over the subtype list; `tW ∈ [0,1)` the
`random()` underlying `uniform(min_weight, max_weight)`; `timestamp` the
value of `get_timestamp()`.  Returns `none` where Python would raise
(empty weight table, or a configured key missing from `MATERIAL_TYPES`,
or a subtype index out of range). -/
def recyclableRead (s : RecState) (r rChoice tW : ℚ) (i : ℕ) (timestamp : String) :
    Option (List (String × JVal) × RecState) :=
  if 9/10 < r then some (noDetectionDict, s)
  else
    match pickWeighted s.detection_probabilities
      (rChoice * totalWeight s.detection_probabilities) with
    | none => none
    | some material_type =>
      match alookup MATERIAL_TYPES material_type with
      | none => none
      | some info =>
        match info.subtypes.get? i with
        | none => none
        | some material_subtype =>
          let weight := roundTo 3 (info.weight_min + (info.weight_max - info.weight_min) * tW)
          let awardOut :=
            match s.token_manager, s.current_user_id with
            | some tm, some uid =>
              if uid ≠ "" then
                let out := awardTokens tm uid material_type material_subtype weight timestamp
                (out.1.2, some out.2)
              else (0, s.token_manager)
            | _, _ => ((0 : ℚ), s.token_manager)
          some
            ([("materialDetected", JVal.bool true),
              ("materialType", JVal.str material_type),
              ("materialSubtype", JVal.str material_subtype),
              ("weight", JVal.num weight),
              ("weightUnit", JVal.str "kg"),
              ("density", JVal.num info.density),
              ("densityUnit", JVal.str "pounds/cubic_yard"),
              ("tokensAwarded", JVal.num awardOut.1),
              ("userId",
                match s.current_user_id with
                | some u => JVal.str u
                | none => JVal.null)],
             { s with token_manager := awardOut.2 })

/-- C5 (confirmed, spec-modelled): `redeemTokens` fails with `(false, tm)`
— the whole ledger state, hence every balance and history, unchanged —
when the user id is unknown, the option is unknown, or the balance is
insufficient; it succeeds exactly when the user exists, the option is
known and `tokenCount ≤ balance`, in which case it returns `true`, debits
the balance, appends `{timestamp, tokens, option, reward = tokenCount ×
rate}` to that user's history, and touches no other account and neither
catalog. -/
theorem redeem_tokens_atomic (tm : TokenManager) (userId : String) (n : ℚ)
    (optionName timestamp : String) :
    (alookup tm.users userId = none →
      redeemTokens tm userId n optionName timestamp = (false, tm)) ∧
    (alookup tm.redemption_options optionName = none →
      redeemTokens tm userId n optionName timestamp = (false, tm)) ∧
    (∀ acct, alookup tm.users userId = some acct → acct.balance < n →
      redeemTokens tm userId n optionName timestamp = (false, tm)) ∧
    (∀ acct rate, alookup tm.users userId = some acct →
      alookup tm.redemption_options optionName = some rate →
      n ≤ acct.balance →
      (redeemTokens tm userId n optionName timestamp).1 = true ∧
      alookup (redeemTokens tm userId n optionName timestamp).2.users userId =
        some { acct with
               balance := acct.balance - n
               redemption_history := acct.redemption_history ++
                 [{ timestamp := timestamp, tokens := n,
                    option := optionName, reward := n * rate }] } ∧
      (∀ k, k ≠ userId →
        alookup (redeemTokens tm userId n optionName timestamp).2.users k =
          alookup tm.users k) ∧
      (redeemTokens tm userId n optionName timestamp).2.token_values = tm.token_values ∧
      (redeemTokens tm userId n optionName timestamp).2.redemption_options =
        tm.redemption_options) := by
  refine ⟨?_, ?_, ?_, ?_⟩
  · intro hu
    simp [redeemTokens, hu]
  · intro ho
    cases hu : alookup tm.users userId <;> simp [redeemTokens, hu, ho]
  · intro acct hu hlt
    cases ho : alookup tm.redemption_options optionName with
    | none => simp [redeemTokens, hu, ho]
    | some rate => simp [redeemTokens, hu, ho, not_le.mpr hlt]
  · intro acct rate hu ho hle
    have hsome : (alookup tm.users userId).isSome := by rw [hu]; rfl
    refine ⟨?_, ?_, ?_, ?_, ?_⟩
    · simp [redeemTokens, hu, ho, hle]
    · simp only [redeemTokens, hu, ho, if_pos hle]
      exact alookup_updateUser_self _ hsome
    · intro k hk
      simp only [redeemTokens, hu, ho, if_pos hle]
      exact alookup_updateUser_other _ hk
    · simp [redeemTokens, hu, ho, hle]
    · simp [redeemTokens, hu, ho, hle]

/-- Witness for `redeem_tokens_atomic`: a ledger with one user `"u1"`
holding balance 3 and option `"cash"` at rate 2; redeeming 2 tokens
succeeds and leaves balance 1 with one history entry. -/
theorem redeem_tokens_atomic_witness :
    (redeemTokens ⟨[("u1", ⟨"u1", "John", 3, []⟩)], [], [("cash", 2)]⟩
        "u1" 2 "cash" "t0").1 = true ∧
    alookup (redeemTokens ⟨[("u1", ⟨"u1", "John", 3, []⟩)], [], [("cash", 2)]⟩
        "u1" 2 "cash" "t0").2.users "u1" =
      some ⟨"u1", "John", 1, [⟨"t0", 2, "cash", 4⟩]⟩ := by
  have h := (redeem_tokens_atomic ⟨[("u1", ⟨"u1", "John", 3, []⟩)], [], [("cash", 2)]⟩
    "u1" 2 "cash" "t0").2.2.2 ⟨"u1", "John", 3, []⟩ 2
    (by simp [alookup]) (by simp [alookup]) (by norm_num)
  refine ⟨h.1, h.2.1.trans ?_⟩
  norm_num

/-! ## Ledger call sequences (for the balance invariant) -/

/-- One call to the ledger: either `awardTokens` or `redeemTokens` with
its arguments. -/
inductive LedgerOp where
  | award (userId materialType subtype : String) (weightKg : ℚ) (timestamp : String)
  | redeem (userId : String) (tokenCount : ℚ) (optionName timestamp : String)
deriving Repr, DecidableEq

/-- The ledger state after one call. -/
def applyOp (tm : TokenManager) : LedgerOp → TokenManager
  | .award uid m sub w ts => (awardTokens tm uid m sub w ts).2
  | .redeem uid n opt ts => (redeemTokens tm uid n opt ts).2

/-- The ledger state after a sequence of calls. -/
def runOps (tm : TokenManager) : List LedgerOp → TokenManager
  | [] => tm
  | op :: rest => runOps (applyOp tm op) rest

/-- The pair (tokens awarded to `u`, tokens successfully redeemed by `u`)
contributed by one call executed in state `tm`. -/
def opContribution (u : String) (tm : TokenManager) : LedgerOp → ℚ × ℚ
  | .award uid m sub w ts =>
    (if uid = u ∧ (awardTokens tm uid m sub w ts).1.1 then
       (awardTokens tm uid m sub w ts).1.2 else 0, 0)
  | .redeem uid n opt ts =>
    (0, if uid = u ∧ (redeemTokens tm uid n opt ts).1 then n else 0)

/-- Sum of all tokens awarded to user `u` over a call sequence run from
`tm` (only successful awards contribute). -/
def awardedSum (u : String) (tm : TokenManager) : List LedgerOp → ℚ
  | [] => 0
  | op :: rest => (opContribution u tm op).1 + awardedSum u (applyOp tm op) rest

/-- Sum of the token counts of user `u`'s successful redemptions over a
call sequence run from `tm`. -/
def redeemedSum (u : String) (tm : TokenManager) : List LedgerOp → ℚ
  | [] => 0
  | op :: rest => (opContribution u tm op).2 + redeemedSum u (applyOp tm op) rest

lemma applyOp_token_values (tm : TokenManager) (op : LedgerOp) :
    (applyOp tm op).token_values = tm.token_values := by
  cases op with
  | award uid m sub w ts =>
    cases hu : alookup tm.users uid <;> cases hm : alookup tm.token_values m <;>
      simp [applyOp, awardTokens, hu, hm]
  | redeem uid n opt ts =>
    cases hu : alookup tm.users uid with
    | none => simp [applyOp, redeemTokens, hu]
    | some acct =>
      cases ho : alookup tm.redemption_options opt with
      | none => simp [applyOp, redeemTokens, hu, ho]
      | some rate =>
        by_cases hle : n ≤ acct.balance <;> simp [applyOp, redeemTokens, hu, ho, hle]

/-- After one call, user `u` still has an account, and its balance moved
by exactly that call's contribution. -/
lemma applyOp_balance (tm : TokenManager) (op : LedgerOp) (u : String)
    (acct : UserAccount) (hu : alookup tm.users u = some acct) :
    ∃ acct', alookup (applyOp tm op).users u = some acct' ∧
      acct'.balance = acct.balance + (opContribution u tm op).1 - (opContribution u tm op).2 := by
  have hsome : (alookup tm.users u).isSome := by rw [hu]; rfl
  cases op with
  | award uid m sub w ts =>
    by_cases huid : uid = u
    · subst huid
      cases hm : alookup tm.token_values m with
      | none => exact ⟨acct, by simp [applyOp, awardTokens, hu, hm, opContribution]⟩
      | some value =>
        refine ⟨{ acct with balance := acct.balance + roundTo 2 (w * value) }, ?_, ?_⟩
        · simp only [applyOp, awardTokens, hu, hm]
          exact alookup_updateUser_self _ hsome
        · simp [opContribution, awardTokens, hu, hm]
    · refine ⟨acct, ?_, ?_⟩
      · cases hu2 : alookup tm.users uid with
        | none => simp [applyOp, awardTokens, hu2, hu]
        | some acct2 =>
          cases hm : alookup tm.token_values m with
          | none => simp [applyOp, awardTokens, hu2, hm, hu]
          | some value =>
            simp only [applyOp, awardTokens, hu2, hm]
            exact (alookup_updateUser_other _ (fun hc => huid hc.symm)).trans hu
      · simp [opContribution, huid]
  | redeem uid n opt ts =>
    by_cases huid : uid = u
    · subst huid
      cases ho : alookup tm.redemption_options opt with
      | none => exact ⟨acct, by simp [applyOp, redeemTokens, hu, ho, opContribution]⟩
      | some rate =>
        by_cases hle : n ≤ acct.balance
        · refine ⟨{ acct with
              balance := acct.balance - n
              redemption_history := acct.redemption_history ++
                [{ timestamp := ts, tokens := n, option := opt, reward := n * rate }] },
            ?_, ?_⟩
          · simp only [applyOp, redeemTokens, hu, ho, if_pos hle]
            exact alookup_updateUser_self _ hsome
          · simp [opContribution, redeemTokens, hu, ho, hle]
        · exact ⟨acct, by simp [applyOp, redeemTokens, hu, ho, hle, opContribution]⟩
    · refine ⟨acct, ?_, ?_⟩
      · cases hu2 : alookup tm.users uid with
        | none => simp [applyOp, redeemTokens, hu2, hu]
        | some acct2 =>
          cases ho : alookup tm.redemption_options opt with
          | none => simp [applyOp, redeemTokens, hu2, ho, hu]
          | some rate =>
            by_cases hle : n ≤ acct2.balance
            · simp only [applyOp, redeemTokens, hu2, ho, if_pos hle]
              exact (alookup_updateUser_other _ (fun hc => huid hc.symm)).trans hu
            · simp [applyOp, redeemTokens, hu2, ho, hle, hu]
      · simp [opContribution, huid]

/-- Over any call sequence, the balance moves by `awardedSum - redeemedSum`. -/
lemma runOps_balance (ops : List LedgerOp) (tm : TokenManager) (u : String)
    (acct : UserAccount) (hu : alookup tm.users u = some acct) :
    ∃ acct', alookup (runOps tm ops).users u = some acct' ∧
      acct'.balance = acct.balance + awardedSum u tm ops - redeemedSum u tm ops := by
  induction ops generalizing tm acct with
  | nil => exact ⟨acct, hu, by simp [awardedSum, redeemedSum]⟩
  | cons op rest ih =>
    obtain ⟨acct1, h1, hb1⟩ := applyOp_balance tm op u acct hu
    obtain ⟨acct', h', hb'⟩ := ih (applyOp tm op) acct1 h1
    refine ⟨acct', h', ?_⟩
    rw [hb', hb1]
    simp only [awardedSum, redeemedSum]
    ring

lemma alookup_mem {β : Type} {l : List (String × β)} {k : String} {v : β}
    (h : alookup l k = some v) : (k, v) ∈ l := by
  induction l with
  | nil => simp [alookup] at h
  | cons hd tl ih =>
    obtain ⟨k0, v0⟩ := hd
    rw [alookup_cons] at h
    by_cases he : k0 = k
    · rw [if_pos he] at h
      subst he
      simp only [Option.some.injEq] at h
      simp [h]
    · rw [if_neg he] at h
      simp [ih h]

/-- One call keeps a non-negative balance non-negative, provided the
award weight (if the call is an award) and the catalog values are
non-negative. -/
lemma applyOp_nonneg (tm : TokenManager) (op : LedgerOp) (u : String)
    (acct : UserAccount) (hu : alookup tm.users u = some acct)
    (hb : 0 ≤ acct.balance)
    (hv : ∀ p ∈ tm.token_values, 0 ≤ p.2)
    (hw : ∀ uid m sub w ts, op = .award uid m sub w ts → 0 ≤ w) :
    ∃ acct', alookup (applyOp tm op).users u = some acct' ∧ 0 ≤ acct'.balance := by
  obtain ⟨acct', h', hb'⟩ := applyOp_balance tm op u acct hu
  refine ⟨acct', h', ?_⟩
  rw [hb']
  cases op with
  | award uid m sub w ts =>
    have hw' : 0 ≤ w := hw uid m sub w ts rfl
    simp only [opContribution]
    by_cases hcond : uid = u ∧ (awardTokens tm uid m sub w ts).1.1
    · rw [if_pos hcond]
      cases hu2 : alookup tm.users uid with
      | none => simp [awardTokens, hu2] at hcond
      | some acct2 =>
        cases hm : alookup tm.token_values m with
        | none => simp [awardTokens, hu2, hm] at hcond
        | some value =>
          have hval : 0 ≤ value := hv (m, value) (alookup_mem hm)
          have hr : ((0 : ℤ) : ℚ) ≤ roundTo 2 (w * value) :=
            le_roundTo_of_le (by push_cast; positivity)
          simp only [awardTokens, hu2, hm]
          push_cast at hr
          linarith
    · rw [if_neg hcond]
      linarith
  | redeem uid n opt ts =>
    simp only [opContribution]
    by_cases hcond : uid = u ∧ (redeemTokens tm uid n opt ts).1
    · rw [if_pos hcond]
      obtain ⟨huid, hsucc⟩ := hcond
      subst huid
      cases ho : alookup tm.redemption_options opt with
      | none => simp [redeemTokens, hu, ho] at hsucc
      | some rate =>
        by_cases hle : n ≤ acct.balance
        · linarith
        · simp [redeemTokens, hu, ho, hle] at hsucc
    · rw [if_neg hcond]
      linarith

/-- A whole call sequence keeps a non-negative balance non-negative. -/
lemma runOps_nonneg (ops : List LedgerOp) (tm : TokenManager) (u : String)
    (acct : UserAccount) (hu : alookup tm.users u = some acct)
    (hb : 0 ≤ acct.balance)
    (hv : ∀ p ∈ tm.token_values, 0 ≤ p.2)
    (hw : ∀ uid m sub w ts, LedgerOp.award uid m sub w ts ∈ ops → 0 ≤ w) :
    ∃ acct', alookup (runOps tm ops).users u = some acct' ∧ 0 ≤ acct'.balance := by
  induction ops generalizing tm acct with
  | nil => exact ⟨acct, hu, hb⟩
  | cons op rest ih =>
    obtain ⟨acct1, h1, hb1⟩ := applyOp_nonneg tm op u acct hu hb hv
      (fun uid m sub w ts hop => hw uid m sub w ts (by simp [hop]))
    exact ih (applyOp tm op) acct1 h1 hb1
      (by rw [applyOp_token_values]; exact hv)
      (fun uid m sub w ts hop => hw uid m sub w ts (by simp [hop]))

/-- C1 (amended, spec-modelled): starting from a registered account with
balance 0, after **any** sequence of `awardTokens`/`redeemTokens` calls —
with no restriction on weights or catalog values — the balance equals the
sum of all tokens awarded to the account minus the sum of the token
counts of its successful redemptions; and, provided every award in the
sequence has a non-negative `weightKg` and every catalog token value is
non-negative, the balance is also non-negative after every prefix of the
sequence.  (Without that proviso the spec's award operation can drive a
balance negative; see the counterexample.) -/
theorem ledger_balance_invariant (ops : List LedgerOp) (tm : TokenManager)
    (u : String) (acct : UserAccount)
    (hu : alookup tm.users u = some acct) (hb : acct.balance = 0) :
    (∃ acct', alookup (runOps tm ops).users u = some acct' ∧
      acct'.balance = awardedSum u tm ops - redeemedSum u tm ops) ∧
    ((∀ p ∈ tm.token_values, 0 ≤ p.2) →
      (∀ uid m sub w ts, LedgerOp.award uid m sub w ts ∈ ops → 0 ≤ w) →
      ∀ pre suf, ops = pre ++ suf →
        ∃ acct', alookup (runOps tm pre).users u = some acct' ∧ 0 ≤ acct'.balance) := by
  constructor
  · obtain ⟨acct', h', hb'⟩ := runOps_balance ops tm u acct hu
    exact ⟨acct', h', by rw [hb', hb]; ring⟩
  · intro hv hw pre suf hsplit
    exact runOps_nonneg pre tm u acct hu (by rw [hb])
      hv (fun uid m sub w ts hop => hw uid m sub w ts (by rw [hsplit]; simp [hop]))

/-- A ledger with one registered user (balance 0) and `"plastic"` valued
at 2 tokens/kg, used to refute the unconditional non-negativity claim. -/
def tmNegWeight : TokenManager :=
  { users := [("u1", { user_id := "u1", name := "John", balance := 0,
                       redemption_history := [] })]
    token_values := [("plastic", 2)]
    redemption_options := [] }

/-- C1 (counterexample): the specified `awardTokens` validates only the
user id and the material, so the single call
`awardTokens("u1", "plastic", "PET bottle", -1, "t0")` on a fresh account
credits `round(-1 × 2, 2) = -2` and leaves the balance negative, refuting
"the balance is never negative at any point in the sequence" as stated
for arbitrary call sequences.  (The balance still equals awards minus
redemptions.) -/
theorem ledger_balance_invariant_counterexample :
    alookup tmNegWeight.users "u1" =
      some { user_id := "u1", name := "John", balance := 0, redemption_history := [] } ∧
    (∃ acct', alookup
        (runOps tmNegWeight [LedgerOp.award "u1" "plastic" "PET bottle" (-1) "t0"]).users "u1" =
        some acct' ∧ acct'.balance < 0) := by
  refine ⟨by simp [tmNegWeight, alookup], ?_⟩
  refine ⟨{ user_id := "u1", name := "John", balance := -2, redemption_history := [] }, ?_, by norm_num⟩
  have h2 : roundTo 2 ((-2 : ℚ)) = -2 := by
    norm_num [roundTo, round_eq]
  simp [runOps, applyOp, awardTokens, tmNegWeight, alookup, updateUser, h2]

/-- Witness for `ledger_balance_invariant`: the equality conjunct holds
unconditionally, even on the negative-weight sequence of the
counterexample — the balance after `awardTokens("u1", "plastic",
"PET bottle", -1, "t0")` still equals awards minus redemptions. -/
theorem ledger_balance_invariant_witness :
    ∃ acct', alookup
        (runOps tmNegWeight [LedgerOp.award "u1" "plastic" "PET bottle" (-1) "t0"]).users
        "u1" = some acct' ∧
      acct'.balance =
        awardedSum "u1" tmNegWeight [LedgerOp.award "u1" "plastic" "PET bottle" (-1) "t0"] -
          redeemedSum "u1" tmNegWeight [LedgerOp.award "u1" "plastic" "PET bottle" (-1) "t0"] := by
  have h := ledger_balance_invariant [LedgerOp.award "u1" "plastic" "PET bottle" (-1) "t0"]
    tmNegWeight "u1"
    { user_id := "u1", name := "John", balance := 0, redemption_history := [] }
    (by simp [tmNegWeight, alookup]) rfl
  exact h.1

/-- C6 (counterexample): constructing the detector with the weights
`{"paper": 5}` — whose sum 5 lies far outside `[0.99, 1.01]` — raises no
error and installs the weights as given: `__init__` performs no
validation; only `set_detection_probabilities` does. -/
theorem detection_probabilities_counterexample :
    (recyclableInit (some [("paper", 5)]) none).detection_probabilities = [("paper", 5)] ∧
    totalWeight [("paper", 5)] = 5 ∧
    ¬(99/100 ≤ (5 : ℚ) ∧ (5 : ℚ) ≤ 101/100) := by
  refine ⟨rfl, by norm_num [totalWeight], by norm_num⟩

/-- C6 (amended): the `[0.99, 1.01]` sum check lives in
`set_detection_probabilities`, not in `__init__`: the setter installs the
weights exactly when their sum lies in the inclusive interval
`[0.99, 1.01]` and raises `ValueError` without installing them otherwise,
while construction installs any non-empty weight table unvalidated. -/
theorem detection_probabilities_validation (s : RecState) (probs : List (String × ℚ)) :
    (99/100 ≤ totalWeight probs ∧ totalWeight probs ≤ 101/100 →
      setDetectionProbabilities s probs =
        Except.ok { s with detection_probabilities := probs }) ∧
    (¬(99/100 ≤ totalWeight probs ∧ totalWeight probs ≤ 101/100) →
      setDetectionProbabilities s probs =
        Except.error "Detection probabilities must sum to approximately 1.0") ∧
    (∀ tm dp, dp ≠ [] → (recyclableInit (some dp) tm).detection_probabilities = dp) := by
  refine ⟨?_, ?_, ?_⟩
  · intro h
    simp [setDetectionProbabilities, h]
  · intro h
    simp [setDetectionProbabilities, h]
  · intro tm dp hdp
    cases dp with
    | nil => exact absurd rfl hdp
    | cons hd tl => rfl

/-- Witness for `detection_probabilities_validation` at the default
state with the valid weight table `{"paper": 1}`. -/
theorem detection_probabilities_validation_witness :
    setDetectionProbabilities (recyclableInit none none) [("paper", 1)] =
      Except.ok { recyclableInit none none with
                  detection_probabilities := [("paper", 1)] } := by
  exact (detection_probabilities_validation (recyclableInit none none)
    [("paper", 1)]).1 (by norm_num [totalWeight])

/-- C9 (confirmed): on the no-detection branch (`r > 0.9`) `read` returns
exactly the five-key dict `{materialDetected: False, materialType: None,
materialSubtype: None, weight: 0.0, weightUnit: "kg"}` — the
`tokensAwarded`, `density` and `userId` keys present on the detection
branch are absent — and the sensor state, in particular the attached
token manager and with it every account balance, is unchanged; `main.py`'s
`recyclable_data.get("tokensAwarded", 0)` therefore falls back to the
default 0. -/
theorem no_detection_shape (s : RecState) (r rChoice tW : ℚ) (i : ℕ) (ts : String)
    (hr : 9/10 < r) :
    recyclableRead s r rChoice tW i ts = some (noDetectionDict, s) ∧
    noDetectionDict.map Prod.fst =
      ["materialDetected", "materialType", "materialSubtype", "weight", "weightUnit"] ∧
    alookup noDetectionDict "materialDetected" = some (JVal.bool false) ∧
    alookup noDetectionDict "materialType" = some JVal.null ∧
    alookup noDetectionDict "materialSubtype" = some JVal.null ∧
    alookup noDetectionDict "weight" = some (JVal.num 0) ∧
    alookup noDetectionDict "weightUnit" = some (JVal.str "kg") ∧
    alookup noDetectionDict "tokensAwarded" = none ∧
    alookup noDetectionDict "density" = none ∧
    alookup noDetectionDict "userId" = none ∧
    dictGetD noDetectionDict "tokensAwarded" (JVal.num 0) = JVal.num 0 := by
  refine ⟨by simp [recyclableRead, hr], rfl, ?_, ?_, ?_, ?_, ?_, ?_, ?_, ?_, ?_⟩ <;>
    simp [noDetectionDict, alookup, dictGetD]

/-- Witness for `no_detection_shape` at the default sensor state with
draw `r = 0.95`. -/
theorem no_detection_shape_witness :
    recyclableRead (recyclableInit none none) (19/20) 0 0 0 "t0" =
      some (noDetectionDict, recyclableInit none none) :=
  (no_detection_shape (recyclableInit none none) (19/20) 0 0 0 "t0" (by norm_num)).1

/-- C7 (confirmed): `read` reports no detection exactly on draws with
`r > 0.9` — fixed probability 0.1, weight 0.0, token manager untouched
(`no_detection_shape`); on a detection it draws the material by the
configured categorical distribution (so the material is one of the
configured keys), the subtype from the material's subtype list, and the
weight uniformly from the material's declared `[min, max]` range (rounded
to 3 decimals, and lying in the range whenever `min ≤ max`); exactly when
a token manager is attached and a (truthy) current user id is set, it
invokes the ledger's `awardTokens` once, stores the updated ledger, and
reports exactly the tokens that call returned; in every other detection
case `tokensAwarded` is 0 and the ledger is untouched. -/
theorem recyclable_read_contract (s : RecState) (r rChoice tW : ℚ) (i : ℕ) (ts : String)
    (material : String) (info : MaterialInfo) (subtype : String)
    (hr : r ≤ 9/10)
    (hpick : pickWeighted s.detection_probabilities
      (rChoice * totalWeight s.detection_probabilities) = some material)
    (hinfo : alookup MATERIAL_TYPES material = some info)
    (hsub : info.subtypes.get? i = some subtype)
    (htW0 : 0 ≤ tW) (htW1 : tW < 1) :
    ∃ d s', recyclableRead s r rChoice tW i ts = some (d, s') ∧
      material ∈ s.detection_probabilities.map Prod.fst ∧
      alookup d "materialDetected" = some (JVal.bool true) ∧
      alookup d "materialType" = some (JVal.str material) ∧
      alookup d "materialSubtype" = some (JVal.str subtype) ∧
      subtype ∈ info.subtypes ∧
      alookup d "weight" = some (JVal.num
        (roundTo 3 (info.weight_min + (info.weight_max - info.weight_min) * tW))) ∧
      (info.weight_min ≤ info.weight_max →
        info.weight_min ≤ info.weight_min + (info.weight_max - info.weight_min) * tW ∧
          info.weight_min + (info.weight_max - info.weight_min) * tW ≤ info.weight_max) ∧
      (∀ tm uid, s.token_manager = some tm → s.current_user_id = some uid → uid ≠ "" →
        s'.token_manager =
          some (awardTokens tm uid material subtype
            (roundTo 3 (info.weight_min + (info.weight_max - info.weight_min) * tW)) ts).2 ∧
        alookup d "tokensAwarded" = some (JVal.num
          (awardTokens tm uid material subtype
            (roundTo 3 (info.weight_min + (info.weight_max - info.weight_min) * tW)) ts).1.2)) ∧
      (s.token_manager = none ∨ s.current_user_id = none ∨ s.current_user_id = some "" →
        s'.token_manager = s.token_manager ∧
        alookup d "tokensAwarded" = some (JVal.num 0)) := by
  have hnr : ¬(9/10 < r) := not_lt.mpr hr
  have hmem : material ∈ s.detection_probabilities.map Prod.fst := pickWeighted_mem hpick
  have hsubmem : subtype ∈ info.subtypes := List.get?_mem hsub
  have hsub' : info.subtypes[i]? = some subtype := by simpa using hsub
  have hwrange : info.weight_min ≤ info.weight_max →
      info.weight_min ≤ info.weight_min + (info.weight_max - info.weight_min) * tW ∧
        info.weight_min + (info.weight_max - info.weight_min) * tW ≤ info.weight_max := by
    intro hle
    constructor <;> nlinarith
  cases htm : s.token_manager with
  | none =>
    refine ⟨[("materialDetected", JVal.bool true),
        ("materialType", JVal.str material),
        ("materialSubtype", JVal.str subtype),
        ("weight", JVal.num (roundTo 3 (info.weight_min + (info.weight_max - info.weight_min) * tW))),
        ("weightUnit", JVal.str "kg"),
        ("density", JVal.num info.density),
        ("densityUnit", JVal.str "pounds/cubic_yard"),
        ("tokensAwarded", JVal.num 0),
        ("userId", match s.current_user_id with
                   | some u => JVal.str u
                   | none => JVal.null)],
      { s with token_manager := none },
      ?_, hmem, ?_, ?_, ?_, hsubmem, ?_, hwrange, ?_, ?_⟩
    · simp [recyclableRead, hnr, hpick, hinfo, hsub', htm]
    · simp [alookup]
    · simp [alookup]
    · simp [alookup]
    · simp [alookup]
    · intro tm uid htm2 _ _
      cases htm2
    · intro _
      exact ⟨rfl, by simp [alookup]⟩
  | some tm0 =>
    cases huid : s.current_user_id with
    | none =>
      refine ⟨[("materialDetected", JVal.bool true),
          ("materialType", JVal.str material),
          ("materialSubtype", JVal.str subtype),
          ("weight", JVal.num (roundTo 3 (info.weight_min + (info.weight_max - info.weight_min) * tW))),
          ("weightUnit", JVal.str "kg"),
          ("density", JVal.num info.density),
          ("densityUnit", JVal.str "pounds/cubic_yard"),
          ("tokensAwarded", JVal.num 0),
          ("userId", JVal.null)],
        { s with token_manager := some tm0 },
        ?_, hmem, ?_, ?_, ?_, hsubmem, ?_, hwrange, ?_, ?_⟩
      · simp [recyclableRead, hnr, hpick, hinfo, hsub', htm, huid]
      · simp [alookup]
      · simp [alookup]
      · simp [alookup]
      · simp [alookup]
      · intro tm uid _ huid2 _
        cases huid2
      · intro _
        exact ⟨rfl, by simp [alookup]⟩
    | some uid0 =>
      by_cases hu0 : uid0 = ""
      · subst hu0
        refine ⟨[("materialDetected", JVal.bool true),
            ("materialType", JVal.str material),
            ("materialSubtype", JVal.str subtype),
            ("weight", JVal.num (roundTo 3 (info.weight_min + (info.weight_max - info.weight_min) * tW))),
            ("weightUnit", JVal.str "kg"),
            ("density", JVal.num info.density),
            ("densityUnit", JVal.str "pounds/cubic_yard"),
            ("tokensAwarded", JVal.num 0),
            ("userId", JVal.str "")],
          { s with token_manager := some tm0 },
          ?_, hmem, ?_, ?_, ?_, hsubmem, ?_, hwrange, ?_, ?_⟩
        · simp [recyclableRead, hnr, hpick, hinfo, hsub', htm, huid]
        · simp [alookup]
        · simp [alookup]
        · simp [alookup]
        · simp [alookup]
        · intro tm uid _ huid2 hne
          exact absurd (Option.some.inj huid2).symm hne
        · intro _
          exact ⟨rfl, by simp [alookup]⟩
      · refine ⟨[("materialDetected", JVal.bool true),
            ("materialType", JVal.str material),
            ("materialSubtype", JVal.str subtype),
            ("weight", JVal.num (roundTo 3 (info.weight_min + (info.weight_max - info.weight_min) * tW))),
            ("weightUnit", JVal.str "kg"),
            ("density", JVal.num info.density),
            ("densityUnit", JVal.str "pounds/cubic_yard"),
            ("tokensAwarded", JVal.num
              (awardTokens tm0 uid0 material subtype
                (roundTo 3 (info.weight_min + (info.weight_max - info.weight_min) * tW)) ts).1.2),
            ("userId", JVal.str uid0)],
          { s with token_manager := some ((awardTokens tm0 uid0 material subtype (roundTo 3 (info.weight_min + (info.weight_max - info.weight_min) * tW)) ts).2) },
          ?_, hmem, ?_, ?_, ?_, hsubmem, ?_, hwrange, ?_, ?_⟩
        · simp [recyclableRead, hnr, hpick, hinfo, hsub', htm, huid, hu0]
        · simp [alookup]
        · simp [alookup]
        · simp [alookup]
        · simp [alookup]
        · intro tm uid htm2 huid2 _
          cases htm2
          cases huid2
          exact ⟨rfl, by simp [alookup]⟩
        · intro hcase
          rcases hcase with hc | hc | hc
          · cases hc
          · cases hc
          · exact absurd (Option.some.inj hc) hu0

/-- Witness for `recyclable_read_contract`: default weights, a ledger
with user `"u1"` and `"plastic"` valued at 2 tokens/kg, current user
`"u1"`; draws `r = 0`, `rChoice = 1/2` (which picks `"plastic"`),
subtype index 0, `tW = 0`. -/
theorem recyclable_read_contract_witness :
    ∃ d s', recyclableRead
        { detection_probabilities := defaultDetectionProbs
          token_manager := some ⟨[("u1", ⟨"u1", "John", 0, []⟩)], [("plastic", 2)], []⟩
          current_user_id := some "u1" } 0 (1/2) 0 0 "t0" = some (d, s') ∧
      alookup d "materialType" = some (JVal.str "plastic") ∧
      alookup d "materialSubtype" = some (JVal.str "PET bottle") := by
  obtain ⟨d, s', h1, _, _, h4, h5, _⟩ := recyclable_read_contract
    { detection_probabilities := defaultDetectionProbs
      token_manager := some ⟨[("u1", ⟨"u1", "John", 0, []⟩)], [("plastic", 2)], []⟩
      current_user_id := some "u1" } 0 (1/2) 0 0 "t0" "plastic"
    ⟨["PET bottle", "HDPE container", "plastic bag", "plastic packaging"], 1/100, 1/2, 35⟩
    "PET bottle"
    (by norm_num)
    (by norm_num [pickWeighted, defaultDetectionProbs, totalWeight])
    (by simp [MATERIAL_TYPES, alookup])
    rfl (le_refl 0) (by norm_num)
  exact ⟨d, s', h1, h4, h5⟩

lemma aqiCategoryOf_eq (a : ℚ) :
    aqiCategoryOf a =
      if 0 ≤ a ∧ a ≤ 50 then "good"
      else if 51 ≤ a ∧ a ≤ 100 then "moderate"
      else if 101 ≤ a ∧ a ≤ 150 then "unhealthy_sensitive"
      else if 151 ≤ a ∧ a ≤ 200 then "unhealthy"
      else if 201 ≤ a ∧ a ≤ 300 then "very_unhealthy"
      else if 301 ≤ a ∧ a ≤ 500 then "hazardous"
      else "good" := rfl

/-- C4 (counterexample): `read` can produce the AQI 50.5 (base 50.5, no
correlation inputs, zero variation draw), which lies in none of the six
inclusive ranges — the table jumps from `(0, 50)` to `(51, 100)` — and
the category loop then leaves its initialised default `"good"` in place
even though 50.5 is not in `good`'s range `[0, 50]`.  The returned
category is therefore not determined by the declared inclusive ranges. -/
theorem aqi_category_counterexample :
    (airQualityRead (airQualityInit (101/2)) none none 0).2.current_aqi = 101/2 ∧
    (airQualityRead (airQualityInit (101/2)) none none 0).1.category = "good" ∧
    (∀ c ∈ AQI_CATEGORIES, ¬(c.2.1 ≤ (101/2 : ℚ) ∧ (101/2 : ℚ) ≤ c.2.2)) := by
  refine ⟨?_, ?_, ?_⟩
  · norm_num [airQualityRead, airQualityInit]
  · norm_num [airQualityRead, airQualityInit, aqiCategoryOf_eq]
  · intro c hc
    simp only [AQI_CATEGORIES, List.mem_cons, List.not_mem_nil, or_false] at hc
    rcases hc with h | h | h | h | h | h <;> subst h <;> norm_num

/-- C4 (amended): the AQI stored and reported by `read` always lies in
`[0, 500]` (reported value = stored value rounded to 2 decimals); the
returned category is always one of the six table names; whenever the
stored AQI lies in one of the six declared inclusive ranges the returned
category is exactly that range's name; but on the five gaps between
consecutive ranges (e.g. `50 < aqi < 51`) no range matches and the loop's
initial default `"good"` is returned.  (Values above 500 cannot leave
`read` because of the clamp; the separate helper `get_category_for_aqi`
maps them to `"hazardous"`.) -/
theorem aqi_category_mapping (s : AirQualityState) (fl t : Option ℚ) (v : ℚ) :
    0 ≤ (airQualityRead s fl t v).2.current_aqi ∧
    (airQualityRead s fl t v).2.current_aqi ≤ 500 ∧
    (airQualityRead s fl t v).1.aqi = roundTo 2 (airQualityRead s fl t v).2.current_aqi ∧
    (airQualityRead s fl t v).1.category ∈ AQI_CATEGORIES.map Prod.fst ∧
    (∀ c ∈ AQI_CATEGORIES,
      c.2.1 ≤ (airQualityRead s fl t v).2.current_aqi ∧
        (airQualityRead s fl t v).2.current_aqi ≤ c.2.2 →
      (airQualityRead s fl t v).1.category = c.1) ∧
    ((∀ c ∈ AQI_CATEGORIES,
        ¬(c.2.1 ≤ (airQualityRead s fl t v).2.current_aqi ∧
          (airQualityRead s fl t v).2.current_aqi ≤ c.2.2)) →
      (airQualityRead s fl t v).1.category = "good") := by
  obtain ⟨X, hX⟩ : ∃ X, (airQualityRead s fl t v).2.current_aqi = max 0 (min 500 X) :=
    ⟨_, rfl⟩
  have hcat : (airQualityRead s fl t v).1.category =
      aqiCategoryOf (airQualityRead s fl t v).2.current_aqi := rfl
  have h0 : 0 ≤ (airQualityRead s fl t v).2.current_aqi := by rw [hX]; exact le_max_left _ _
  have h500 : (airQualityRead s fl t v).2.current_aqi ≤ 500 := by
    rw [hX]
    exact max_le (by norm_num) (min_le_left _ _)
  refine ⟨h0, h500, rfl, ?_, ?_, ?_⟩
  · rw [hcat, aqiCategoryOf_eq]
    split_ifs <;> simp [AQI_CATEGORIES]
  · intro c hc hrange
    rw [hcat]
    simp only [AQI_CATEGORIES, List.mem_cons, List.not_mem_nil, or_false] at hc
    obtain ⟨hr1, hr2⟩ := hrange
    rcases hc with h | h | h | h | h | h <;> subst h <;> norm_num at hr1 hr2 <;>
      rw [aqiCategoryOf_eq]
    · rw [if_pos ⟨hr1, hr2⟩]
    · rw [if_neg (by rintro ⟨-, hx⟩; linarith), if_pos ⟨hr1, hr2⟩]
    · rw [if_neg (by rintro ⟨-, hx⟩; linarith), if_neg (by rintro ⟨-, hx⟩; linarith),
        if_pos ⟨hr1, hr2⟩]
    · rw [if_neg (by rintro ⟨-, hx⟩; linarith), if_neg (by rintro ⟨-, hx⟩; linarith),
        if_neg (by rintro ⟨-, hx⟩; linarith), if_pos ⟨hr1, hr2⟩]
    · rw [if_neg (by rintro ⟨-, hx⟩; linarith), if_neg (by rintro ⟨-, hx⟩; linarith),
        if_neg (by rintro ⟨-, hx⟩; linarith), if_neg (by rintro ⟨-, hx⟩; linarith),
        if_pos ⟨hr1, hr2⟩]
    · rw [if_neg (by rintro ⟨-, hx⟩; linarith), if_neg (by rintro ⟨-, hx⟩; linarith),
        if_neg (by rintro ⟨-, hx⟩; linarith), if_neg (by rintro ⟨-, hx⟩; linarith),
        if_neg (by rintro ⟨-, hx⟩; linarith), if_pos ⟨hr1, hr2⟩]
  · intro hnone
    rw [hcat, aqiCategoryOf_eq]
    rw [if_neg (by simpa using hnone ("good", 0, 50) (by simp [AQI_CATEGORIES])),
      if_neg (by simpa using hnone ("moderate", 51, 100) (by simp [AQI_CATEGORIES])),
      if_neg (by simpa using hnone ("unhealthy_sensitive", 101, 150) (by simp [AQI_CATEGORIES])),
      if_neg (by simpa using hnone ("unhealthy", 151, 200) (by simp [AQI_CATEGORIES])),
      if_neg (by simpa using hnone ("very_unhealthy", 201, 300) (by simp [AQI_CATEGORIES])),
      if_neg (by simpa using hnone ("hazardous", 301, 500) (by simp [AQI_CATEGORIES]))]

/-- Witness for `aqi_category_mapping`: base AQI 75, no correlation
inputs, zero variation — AQI 75 falls in `moderate`'s range `[51, 100]`. -/
theorem aqi_category_mapping_witness :
    (airQualityRead (airQualityInit 75) none none 0).1.category = "moderate" := by
  have h := (aqi_category_mapping (airQualityInit 75) none none 0).2.2.2.2.1
    ("moderate", 51, 100) (by simp [AQI_CATEGORIES])
    (by constructor <;> norm_num [airQualityRead, airQualityInit])
  exact h

/-! ## Bounded outputs (claim C3) -/

lemma roundTo_mem (n : ℕ) (a b : ℤ) {x : ℚ} (h1 : (a : ℚ) ≤ x) (h2 : x ≤ (b : ℚ)) :
    (a : ℚ) ≤ roundTo n x ∧ roundTo n x ≤ (b : ℚ) :=
  ⟨le_roundTo_of_le h1, roundTo_le_of_le h2⟩

/-- C3 (counterexample): the fill level is the one bounded quantity whose
lower bound is not enforced: `read` only clamps at `capacity`.  With the
admissible constructor parameters `initial_fill_level = 10`,
`fill_rate = -20`, `fill_rate_variation = 0`, a single `read` (draw 0)
leaves stored and reported level at −10, outside `[0, capacity]`. -/
theorem bounded_outputs_counterexample :
    (fillRead (fillInit 10 (-20) 100 0 95) 0).2.fill_level = -10 ∧
    (fillRead (fillInit 10 (-20) 100 0 95) 0).1.fillLevel = -10 ∧
    ¬(0 ≤ (fillRead (fillInit 10 (-20) 100 0 95) 0).2.fill_level) := by
  have h1 : (fillRead (fillInit 10 (-20) 100 0 95) 0).2.fill_level = -10 := by
    norm_num [fillRead, fillInit]
  refine ⟨h1, ?_, by rw [h1]; norm_num⟩
  norm_num [fillRead, fillInit, roundTo, round_eq]

/-- C3 (amended): after every `read`, humidity (stored and reported) lies
in `[0, 100]`, AQI in `[0, 500]`, odor intensity in `[0, 1]`, latitude in
`[-90, 90]` and longitude in `[-180, 180]`, for arbitrary constructor
parameters and draws; the stored fill level is clamped above at
`capacity`, but its lower bound 0 is not enforced — it holds only under
the extra assumptions that the previous level, the capacity and the
effective increment `fillRate + v` are non-negative. -/
theorem bounded_outputs (fs : FillState) (fv : ℚ)
    (hs : HumidityState) (hfl : Option ℚ) (hv2 : ℚ)
    (as2 : AirQualityState) (afl at2 : Option ℚ) (av : ℚ)
    (os : OdorState) (ofl : Option ℚ) (orc otb ov : ℚ)
    (gs : GPSState) (dlat dlon : ℚ) :
    (fillRead fs fv).2.fill_level ≤ fs.capacity ∧
    (0 ≤ fs.fill_level → 0 ≤ fs.fill_rate + fv → 0 ≤ fs.capacity →
      0 ≤ (fillRead fs fv).2.fill_level) ∧
    (0 ≤ (humidityRead hs hfl hv2).2.current_humidity ∧
      (humidityRead hs hfl hv2).2.current_humidity ≤ 100) ∧
    (0 ≤ (humidityRead hs hfl hv2).1.humidity ∧
      (humidityRead hs hfl hv2).1.humidity ≤ 100) ∧
    (0 ≤ (airQualityRead as2 afl at2 av).2.current_aqi ∧
      (airQualityRead as2 afl at2 av).2.current_aqi ≤ 500) ∧
    (0 ≤ (airQualityRead as2 afl at2 av).1.aqi ∧
      (airQualityRead as2 afl at2 av).1.aqi ≤ 500) ∧
    (0 ≤ (odorRead os ofl orc otb ov).2.current_intensity ∧
      (odorRead os ofl orc otb ov).2.current_intensity ≤ 1) ∧
    (0 ≤ (odorRead os ofl orc otb ov).1.intensity ∧
      (odorRead os ofl orc otb ov).1.intensity ≤ 1) ∧
    (-90 ≤ (gpsRead gs dlat dlon).2.latitude ∧ (gpsRead gs dlat dlon).2.latitude ≤ 90) ∧
    (-180 ≤ (gpsRead gs dlat dlon).2.longitude ∧ (gpsRead gs dlat dlon).2.longitude ≤ 180) ∧
    (-90 ≤ (gpsRead gs dlat dlon).1.latitude ∧ (gpsRead gs dlat dlon).1.latitude ≤ 90) ∧
    (-180 ≤ (gpsRead gs dlat dlon).1.longitude ∧ (gpsRead gs dlat dlon).1.longitude ≤ 180) := by
  have hhum : (humidityRead hs hfl hv2).2.current_humidity =
      max 0 (min 100 ((match hfl with
        | some fl => hs.base_humidity + min (fl / 100) 1 * hs.fill_level_correlation * 30
        | none => hs.base_humidity) + hv2)) := rfl
  have haqi : ∃ X, (airQualityRead as2 afl at2 av).2.current_aqi = max 0 (min 500 X) :=
    ⟨_, rfl⟩
  have hodor : ∃ X, (odorRead os ofl orc otb ov).2.current_intensity = max 0 (min 1 X) :=
    ⟨_, rfl⟩
  obtain ⟨Xa, hXa⟩ := haqi
  obtain ⟨Xo, hXo⟩ := hodor
  have hhum1 : 0 ≤ (humidityRead hs hfl hv2).2.current_humidity := by
    rw [hhum]; exact le_max_left _ _
  have hhum2 : (humidityRead hs hfl hv2).2.current_humidity ≤ 100 := by
    rw [hhum]; exact max_le (by norm_num) (min_le_left _ _)
  have haqi1 : 0 ≤ (airQualityRead as2 afl at2 av).2.current_aqi := by
    rw [hXa]; exact le_max_left _ _
  have haqi2 : (airQualityRead as2 afl at2 av).2.current_aqi ≤ 500 := by
    rw [hXa]; exact max_le (by norm_num) (min_le_left _ _)
  have hodor1 : 0 ≤ (odorRead os ofl orc otb ov).2.current_intensity := by
    rw [hXo]; exact le_max_left _ _
  have hodor2 : (odorRead os ofl orc otb ov).2.current_intensity ≤ 1 := by
    rw [hXo]; exact max_le (by norm_num) (min_le_left _ _)
  have hlat1 : -90 ≤ (gpsRead gs dlat dlon).2.latitude := le_max_left _ _
  have hlat2 : (gpsRead gs dlat dlon).2.latitude ≤ 90 :=
    max_le (by norm_num) (min_le_left _ _)
  have hlon1 : -180 ≤ (gpsRead gs dlat dlon).2.longitude := le_max_left _ _
  have hlon2 : (gpsRead gs dlat dlon).2.longitude ≤ 180 :=
    max_le (by norm_num) (min_le_left _ _)
  refine ⟨min_le_right _ _, ?_, ⟨hhum1, hhum2⟩, ?_, ⟨haqi1, haqi2⟩, ?_, ⟨hodor1, hodor2⟩,
    ?_, ⟨hlat1, hlat2⟩, ⟨hlon1, hlon2⟩, ?_, ?_⟩
  · intro h0 hrate hcap
    exact le_min (by linarith) hcap
  · have := roundTo_mem 2 0 100 (by exact_mod_cast hhum1) (by exact_mod_cast hhum2)
    constructor
    · exact_mod_cast this.1
    · exact_mod_cast this.2
  · have := roundTo_mem 2 0 500 (by exact_mod_cast haqi1) (by exact_mod_cast haqi2)
    constructor
    · exact_mod_cast this.1
    · exact_mod_cast this.2
  · have := roundTo_mem 3 0 1 (by exact_mod_cast hodor1) (by exact_mod_cast hodor2)
    constructor
    · exact_mod_cast this.1
    · exact_mod_cast this.2
  · have := roundTo_mem 6 (-90) 90 (by exact_mod_cast hlat1) (by exact_mod_cast hlat2)
    constructor
    · exact_mod_cast this.1
    · exact_mod_cast this.2
  · have := roundTo_mem 6 (-180) 180 (by exact_mod_cast hlon1) (by exact_mod_cast hlon2)
    constructor
    · exact_mod_cast this.1
    · exact_mod_cast this.2

/-- Witness for `bounded_outputs` at the default states and zero draws;
the fill-level lower-bound hypotheses hold for the default parameters. -/
theorem bounded_outputs_witness :
    0 ≤ (fillRead fillInit 0).2.fill_level ∧
    (fillRead fillInit 0).2.fill_level ≤ fillInit.capacity := by
  have h := bounded_outputs fillInit 0 humidityInit none 0 airQualityInit none none 0
    odorInit none 0 0 0 gpsInit 0 0
  exact ⟨h.2.1 (by norm_num [fillInit]) (by norm_num [fillInit]) (by norm_num [fillInit]), h.1⟩

/-- C10 (confirmed): called without correlation inputs (`None`), each of
the three correlated generators falls back to its base value alone and
raises nothing: humidity is `clamp(base + uniform(-var, var), 0, 100)`,
AQI is `clamp(base + uniform(-var, var), 0, 500)`, and the odor type is
drawn by `random.choices` with the fixed weights `[0.3, 0.2, 0.2, 0.3]`
over `[organic, chemical, mold, none]`; all clamping bounds still hold on
the reported values. -/
theorem uncorrelated_fallback (hs : HumidityState) (hv2 : ℚ)
    (as2 : AirQualityState) (av : ℚ) (os : OdorState) (orc otb ov : ℚ) :
    (humidityRead hs none hv2).2.current_humidity =
      max 0 (min 100 (hs.base_humidity + hv2)) ∧
    (humidityRead hs none hv2).1.humidity =
      roundTo 2 (max 0 (min 100 (hs.base_humidity + hv2))) ∧
    (0 ≤ (humidityRead hs none hv2).1.humidity ∧
      (humidityRead hs none hv2).1.humidity ≤ 100) ∧
    (airQualityRead as2 none none av).2.current_aqi =
      max 0 (min 500 (as2.base_aqi + av)) ∧
    (airQualityRead as2 none none av).1.aqi =
      roundTo 2 (max 0 (min 500 (as2.base_aqi + av))) ∧
    (0 ≤ (airQualityRead as2 none none av).1.aqi ∧
      (airQualityRead as2 none none av).1.aqi ≤ 500) ∧
    (odorRead os none orc otb ov).1.odorType =
      (pickWeighted odorWeightsNoFill (orc * totalWeight odorWeightsNoFill)).getD "none" ∧
    odorWeightsNoFill =
      [("organic", 3/10), ("chemical", 1/5), ("mold", 1/5), ("none", 3/10)] ∧
    (0 ≤ (odorRead os none orc otb ov).1.intensity ∧
      (odorRead os none orc otb ov).1.intensity ≤ 1) := by
  have hh1 : (0 : ℚ) ≤ max 0 (min 100 (hs.base_humidity + hv2)) := le_max_left _ _
  have hh2 : max 0 (min 100 (hs.base_humidity + hv2)) ≤ 100 :=
    max_le (by norm_num) (min_le_left _ _)
  have ha1 : (0 : ℚ) ≤ max 0 (min 500 (as2.base_aqi + av)) := le_max_left _ _
  have ha2 : max 0 (min 500 (as2.base_aqi + av)) ≤ 500 :=
    max_le (by norm_num) (min_le_left _ _)
  obtain ⟨Xo, hXo⟩ : ∃ X, (odorRead os none orc otb ov).2.current_intensity =
      max 0 (min 1 X) := ⟨_, rfl⟩
  have ho1 : (0 : ℚ) ≤ max 0 (min 1 Xo) := le_max_left _ _
  have ho2 : max 0 (min 1 Xo) ≤ 1 := max_le (by norm_num) (min_le_left _ _)
  have hointensity : (odorRead os none orc otb ov).1.intensity =
      roundTo 3 ((odorRead os none orc otb ov).2.current_intensity) := rfl
  refine ⟨rfl, rfl, ?_, rfl, rfl, ?_, rfl, rfl, ?_⟩
  · have := roundTo_mem 2 0 100 (by exact_mod_cast hh1) (by exact_mod_cast hh2)
    constructor
    · exact_mod_cast this.1
    · exact_mod_cast this.2
  · have := roundTo_mem 2 0 500 (by exact_mod_cast ha1) (by exact_mod_cast ha2)
    constructor
    · exact_mod_cast this.1
    · exact_mod_cast this.2
  · rw [hointensity, hXo]
    have := roundTo_mem 3 0 1 (by exact_mod_cast ho1) (by exact_mod_cast ho2)
    constructor
    · exact_mod_cast this.1
    · exact_mod_cast this.2

end SmartBin
